import Mathlib

/-!
Shallow embedding of the room-based chat service (`app.py` / `db.py`):
room creation codes, join/leave/delete, message history, text messages,
media upload/download, and the Socket.IO connection router.

Database rows are modelled as lists of records; each HTTP / Socket.IO
handler becomes a pure function from the database state (plus the session
data and form inputs it reads) to the new state, the list of emitted
Socket.IO events, and the flash messages shown to the caller.
-/

/-- Model of Python `str.strip()`: remove leading and trailing whitespace. -/
def pyStrip (s : String) : String :=
  String.mk (((s.data.dropWhile Char.isWhitespace).reverse.dropWhile Char.isWhitespace).reverse)

/-- Model of Python `str.isdigit()` restricted to ASCII digits: non-empty and all digits. -/
def pyIsdigit (s : String) : Bool := !s.data.isEmpty && s.data.all Char.isDigit

/-- Model of Python `int(s)` on a string of ASCII decimal digits. -/
def pyInt (s : String) : Nat := s.data.foldl (fun acc c => acc * 10 + (c.toNat - 48)) 0

/-- Model of Python `str.upper()` (ASCII letters). -/
def pyUpper (s : String) : String := String.mk (s.data.map Char.toUpper)

/-- Model of Python `str.lower()` (ASCII letters). -/
def pyLower (s : String) : String := String.mk (s.data.map Char.toLower)

/-- Model of Python `str.endswith(suffix)`. -/
def pyEndsWith (s sufijo : String) : Bool := sufijo.data.isSuffixOf s.data

/-- Row of table `Salas`: id, 6-digit code, display name, creator, creation date. -/
structure Sala where
  id_sala : Nat
  codigo : String
  nombre_sala : String
  id_creador : Nat
  fecha_creacion : Nat
deriving DecidableEq

/-- Row of table `Miembros_Sala`: the membership of one user in one room. -/
structure Miembro where
  id_sala : Nat
  id_usuario : Nat
  fecha_union : Nat
deriving DecidableEq

/-- Row of table `Mensajes_Sala`. `id_emisor = none` is a SQL NULL sender
(system notice); `tipo_archivo` and `archivo_datos` are NULL for text rows. -/
structure Mensaje where
  id_mensaje : Nat
  id_sala : Nat
  id_emisor : Option Nat
  contenido : String
  fecha_envio : Nat
  es_sistema : Bool
  tipo_archivo : Option String
  archivo_datos : Option (List Nat)
deriving DecidableEq

/-- The relational state: the three tables plus the AUTO_INCREMENT counter
that assigns the next `id_mensaje`. -/
structure DB where
  salas : List Sala
  miembros : List Miembro
  mensajes : List Mensaje
  next_id_mensaje : Nat
deriving DecidableEq

/-- One emitted Socket.IO event: event name, JSON payload as field/value
pairs (values stringified), and the destination channel. -/
structure EventoEmitido where
  nombre : String
  payload : List (String × String)
  destino : String
deriving DecidableEq

/-- Whole-server state: database plus the Socket.IO connection router,
a set of (connection id, channel name) subscriptions. -/
structure Servidor where
  db : DB
  router : List (Nat × String)
deriving DecidableEq

/-- Source `nombre_sala`: channel name for a room. -/
def nombre_sala (tipo_sala : String) (id_sala : Nat) : String :=
  tipo_sala ++ ("_") ++ toString id_sala

/-- Source `nombre_sala_usuario`: channel name for a user's private channel. -/
def nombre_sala_usuario (id_usuario : Nat) : String :=
  ("user_") ++ toString id_usuario

/-- Source `usuario_en_sala`: membership query on `Miembros_Sala`. -/
def usuario_en_sala (db : DB) (id_usuario id_sala : Nat) : Bool :=
  db.miembros.any (fun m => m.id_sala == id_sala && m.id_usuario == id_usuario)

/-- Source `ALLOWED_EXTENSIONS`. -/
def ALLOWED_EXTENSIONS : List String := [("mp3"), ("mp4"), ("jpg"), ("png")]

/-- Python `filename.rsplit(".", 1)[1]`: the characters after the last dot
(the whole name when no dot is present). -/
def extension_archivo (filename : String) : String :=
  String.mk ((filename.data.reverse.takeWhile (fun c => !(c == ('.')))).reverse)

/-- Source `archivo_permitido`: the name contains a dot and its lowercased
extension is in the allowed set. -/
def archivo_permitido (filename : String) : Bool :=
  filename.data.contains ('.') && ALLOWED_EXTENSIONS.contains (pyLower (extension_archivo filename))

/-- Source `insertar_aviso_sala`: INSERT a system notice row
(NULL sender, `es_sistema = 1`) into `Mensajes_Sala`. -/
def insertar_aviso_sala (db : DB) (id_sala : Nat) (mensaje : String) (fecha : Nat) : DB :=
  { db with
    mensajes := db.mensajes ++
      [⟨db.next_id_mensaje, id_sala, none, mensaje, fecha, true, none, none⟩],
    next_id_mensaje := db.next_id_mensaje + 1 }

/-- Source `CODIGO_ALFABETO`. -/
def CODIGO_ALFABETO : String := "0123456789"

/-- One loop iteration of `generar_codigo_sala`: the 6-character string built
from six draws of `secrets.choice(CODIGO_ALFABETO)`. -/
def codigo_de (d : Fin 6 → Fin 10) : String :=
  String.mk ((List.finRange 6).map (fun i => CODIGO_ALFABETO.data.getD (d i).val ('0')))

/-- Source `generar_codigo_sala`: keep drawing candidate codes, querying
`Salas` for each, until one not used by any existing room is found.
The random source is a list of draws; `none` means it was exhausted. -/
def generar_codigo_sala (codigos_existentes : List String) :
    List (Fin 6 → Fin 10) → Option String
  | [] => none
  | d :: resto =>
    if codigos_existentes.contains (codigo_de d) then
      generar_codigo_sala codigos_existentes resto
    else
      some (codigo_de d)

/-- Source route `room_join` (`POST /rooms/join`): strip + uppercase the form
code, validate it is 6 digits, look the room up by code, reject when already
a member, otherwise INSERT the membership, INSERT the system notice and emit
`room_notice` to the room channel and `actualizar_ui` to the user channel.
Returns (new DB, emitted events, flash messages). -/
def room_join (db : DB) (id_usuario : Nat) (username : String) (code_form : String)
    (fecha : Nat) : DB × List EventoEmitido × List String :=
  let codigo := pyUpper (pyStrip code_form)
  if codigo.length != 6 || !(pyIsdigit codigo) then
    (db, [], [("Codigo invalido.")])
  else
    match db.salas.find? (fun s => s.codigo == codigo) with
    | none => (db, [], [("Sala no encontrada.")])
    | some sala =>
      if usuario_en_sala db id_usuario sala.id_sala then
        (db, [], [("Ya estas en esa sala.")])
      else
        let db1 : DB := { db with miembros := db.miembros ++ [⟨sala.id_sala, id_usuario, fecha⟩] }
        let aviso := username ++ (" se unio a la sala.")
        let db2 := insertar_aviso_sala db1 sala.id_sala aviso fecha
        (db2,
         [⟨("room_notice"),
           [(("room_type"), ("room")), (("room_id"), toString sala.id_sala),
            (("body"), aviso), (("timestamp"), toString fecha)],
           nombre_sala ("room") sala.id_sala⟩,
          ⟨("actualizar_ui"), [(("motivo"), ("nueva_sala"))], nombre_sala_usuario id_usuario⟩],
         [("Te uniste a la sala.")])

/-- Source route `room_delete` (`POST /rooms/delete`): strip + parse the room
id, look the room up, reject unless the caller is the creator, otherwise
DELETE the `Salas` row — the schema's ON DELETE CASCADE removes the room's
memberships and messages — and emit `actualizar_ui` to the room channel. -/
def room_delete (db : DB) (id_usuario : Nat) (room_id_form : String) :
    DB × List EventoEmitido × List String :=
  let room_id_str := pyStrip room_id_form
  if !(pyIsdigit room_id_str) then
    (db, [], [("Sala invalida.")])
  else
    let room_id := pyInt room_id_str
    match db.salas.find? (fun s => s.id_sala == room_id) with
    | none => (db, [], [("Sala no encontrada.")])
    | some sala =>
      if sala.id_creador != id_usuario then
        (db, [], [("Solo el creador puede borrar la sala.")])
      else
        let db1 : DB := { db with
          salas := db.salas.filter (fun s => !(s.id_sala == room_id)),
          miembros := db.miembros.filter (fun m => !(m.id_sala == room_id)),
          mensajes := db.mensajes.filter (fun m => !(m.id_sala == room_id)) }
        (db1,
         [⟨("actualizar_ui"), [(("motivo"), ("sala_eliminada"))], nombre_sala ("room") room_id⟩],
         [("Sala eliminada.")])

/-- Source route `room_leave` (`POST /rooms/leave`): strip + parse the room id,
reject non-members, otherwise DELETE the membership row, INSERT the system
notice and emit `room_notice`. The route performs no Socket.IO subscription
change, so the router component of the server state is left untouched. -/
def room_leave (srv : Servidor) (id_usuario : Nat) (username : String)
    (room_id_form : String) (fecha : Nat) : Servidor × List EventoEmitido × List String :=
  let room_id_str := pyStrip room_id_form
  if !(pyIsdigit room_id_str) then
    (srv, [], [("Sala invalida.")])
  else
    let room_id := pyInt room_id_str
    if !(usuario_en_sala srv.db id_usuario room_id) then
      (srv, [], [("No perteneces a esa sala.")])
    else
      let db1 : DB := { srv.db with
        miembros := srv.db.miembros.filter
          (fun m => !(m.id_sala == room_id && m.id_usuario == id_usuario)) }
      let aviso := username ++ (" salio de la sala.")
      let db2 := insertar_aviso_sala db1 room_id aviso fecha
      ({ srv with db := db2 },
       [⟨("room_notice"),
         [(("room_type"), ("room")), (("room_id"), toString room_id),
          (("body"), aviso), (("timestamp"), toString fecha)],
         nombre_sala ("room") room_id⟩],
       [("Saliste de la sala.")])

/-- WHERE clause of the history query: the messages of one room. -/
def mensajes_de_sala (db : DB) (room_id : Nat) : List Mensaje :=
  db.mensajes.filter (fun m => m.id_sala == room_id)

/-- Insert one message into a list kept in descending `id_mensaje` order. -/
def insertarDesc (m : Mensaje) : List Mensaje → List Mensaje
  | [] => [m]
  | x :: xs =>
    if x.id_mensaje ≤ m.id_mensaje then m :: x :: xs else x :: insertarDesc m xs

/-- SQL `ORDER BY id_mensaje DESC` as an insertion sort. -/
def ordenarDesc : List Mensaje → List Mensaje
  | [] => []
  | x :: xs => insertarDesc x (ordenarDesc xs)

/-- Source route `api_messages` (`GET /api/messages`): validate the query
arguments, reject non-members with an empty list, otherwise read the room's
messages ORDER BY `id_mensaje` DESC LIMIT 50 and return them reversed
(ascending id order). -/
def api_messages (db : DB) (id_usuario : Nat) (room_type room_id_arg : String) :
    List Mensaje :=
  if !(pyIsdigit room_id_arg) || room_type != ("room") then []
  else
    let room_id := pyInt room_id_arg
    if !(usuario_en_sala db id_usuario room_id) then []
    else
      ((ordenarDesc (mensajes_de_sala db room_id)).take 50).reverse

/-- HTTP response of the upload endpoint: a JSON error with a status code,
or success carrying the created message id. -/
inductive RespuestaUpload where
  | error (codigo_http : Nat) (mensaje : String)
  | exito (id_mensaje : Nat)
deriving DecidableEq

/-- Source route `upload_media` (`POST /upload-media`): validate the room id,
the caller's membership and the file extension; on success INSERT the message
row with the blob and the media kind (mp3 is audio, mp4 is video, jpg/png are
image) and emit `media_message` to the room channel. -/
def upload_media (db : DB) (id_usuario : Nat) (username : String)
    (room_id_form : String) (file : Option (String × List Nat)) (fecha : Nat) :
    DB × List EventoEmitido × RespuestaUpload :=
  let room_id_str := pyStrip room_id_form
  if !(pyIsdigit room_id_str) then
    (db, [], .error 400 ("Sala invalida."))
  else
    let room_id := pyInt room_id_str
    if !(usuario_en_sala db id_usuario room_id) then
      (db, [], .error 403 ("No eres miembro de esa sala."))
    else
      match file with
      | none => (db, [], .error 400 ("No se subio archivo."))
      | some (filename, datos) =>
        if !(archivo_permitido filename) then
          (db, [], .error 400 ("Archivo no permitido."))
        else
          let ext := pyLower (extension_archivo filename)
          let file_type : String :=
            if ext == ("mp3") then ("audio")
            else if ext == ("mp4") then ("video")
            else if ext == ("jpg") || ext == ("png") then ("image")
            else ("file")
          let id_mensaje := db.next_id_mensaje
          let db1 : DB := { db with
            mensajes := db.mensajes ++
              [⟨id_mensaje, room_id, some id_usuario, filename, fecha, false,
                some file_type, some datos⟩],
            next_id_mensaje := db.next_id_mensaje + 1 }
          (db1,
           [⟨("media_message"),
             [(("room_type"), ("room")), (("room_id"), toString room_id),
              (("id_mensaje"), toString id_mensaje), (("type"), file_type),
              (("sender"), username), (("timestamp"), toString fecha)],
             nombre_sala ("room") room_id⟩],
           .exito id_mensaje)

/-- Source route `get_media` (`GET /get-media/<id>`): look the message up by
id with no session and no membership check; 404 (`none`) when the message is
absent or its `archivo_datos` is NULL or empty, otherwise serve the blob with
the MIME type derived from the stored kind and filename. -/
def get_media (db : DB) (id_mensaje : Nat) : Option (List Nat × String) :=
  match db.mensajes.find? (fun m => m.id_mensaje == id_mensaje) with
  | none => none
  | some mensaje =>
    match mensaje.archivo_datos with
    | none => none
    | some datos =>
      if datos.isEmpty then none
      else
        let mime_type : String :=
          match mensaje.tipo_archivo with
          | some t =>
            if t == ("audio") then ("audio/mpeg")
            else if t == ("video") then ("video/mp4")
            else if t == ("image") then
              (if pyEndsWith (pyLower mensaje.contenido) (".jpeg")
                  || pyEndsWith (pyLower mensaje.contenido) (".jpg") then
                ("image/jpeg")
               else ("image/png"))
            else ("application/octet-stream")
          | none => ("application/octet-stream")
        some (datos, mime_type)

/-- Source Socket.IO handler `manejar_envio_mensaje` (`send_message`): drop
the request silently unless the session is authenticated, the arguments are
well-formed, the stripped body is non-empty and the sender is a member;
otherwise INSERT the message row and emit `message` to the room channel. -/
def manejar_envio_mensaje (db : DB) (session_user : Option Nat) (username : String)
    (room_type : String) (room_id_dato : String) (body_dato : String) (fecha : Nat) :
    DB × List EventoEmitido :=
  match session_user with
  | none => (db, [])
  | some id_usuario =>
    let body := pyStrip body_dato
    if room_type != ("room") || !(pyIsdigit room_id_dato) || body == ("") then (db, [])
    else
      let room_id := pyInt room_id_dato
      if !(usuario_en_sala db id_usuario room_id) then (db, [])
      else
        let db1 : DB := { db with
          mensajes := db.mensajes ++
            [⟨db.next_id_mensaje, room_id, some id_usuario, body, fecha, false, none, none⟩],
          next_id_mensaje := db.next_id_mensaje + 1 }
        (db1,
         [⟨("message"),
           [(("room_type"), room_type), (("room_id"), toString room_id), (("body"), body),
            (("sender"), username), (("timestamp"), toString fecha)],
           nombre_sala room_type room_id⟩])

/-- Source Socket.IO handler `manejar_conexion` (`connect`): an unauthenticated
connection subscribes to nothing; otherwise the connection joins its private
user channel and the channel of every room it is currently a member of. -/
def manejar_conexion (srv : Servidor) (conexion : Nat) (session_user : Option Nat) :
    Servidor :=
  match session_user with
  | none => srv
  | some id_usuario =>
    let canales := nombre_sala_usuario id_usuario ::
      (srv.db.miembros.filter (fun m => m.id_usuario == id_usuario)).map
        (fun m => nombre_sala ("room") m.id_sala)
    { srv with router := srv.router ++ canales.map (fun c => (conexion, c)) }

/-! ## Claim C1: join inserts exactly one membership and one system notice -/

/-- C1: for every user and every valid 6-digit code of an existing room, when
the user is not yet a member, `room_join` appends exactly one new Membership
row and exactly one system notice message for that room; when the user is
already a member, the join is rejected with a flash and the database is left
unchanged, so no duplicate Membership row is created. -/
theorem C1_room_join_membresia (db : DB) (id_usuario : Nat) (username code_form : String)
    (fecha : Nat) (sala : Sala)
    (hlen : (pyUpper (pyStrip code_form)).length = 6)
    (hdig : pyIsdigit (pyUpper (pyStrip code_form)) = true)
    (hfind : db.salas.find? (fun s => s.codigo == pyUpper (pyStrip code_form)) = some sala) :
    (usuario_en_sala db id_usuario sala.id_sala = false →
      (room_join db id_usuario username code_form fecha).1.miembros
          = db.miembros ++ [⟨sala.id_sala, id_usuario, fecha⟩]
      ∧ (room_join db id_usuario username code_form fecha).1.mensajes
          = db.mensajes ++
            [⟨db.next_id_mensaje, sala.id_sala, none,
              username ++ (" se unio a la sala."), fecha, true, none, none⟩])
    ∧ (usuario_en_sala db id_usuario sala.id_sala = true →
      (room_join db id_usuario username code_form fecha).1 = db
      ∧ (room_join db id_usuario username code_form fecha).2.2
          = [("Ya estas en esa sala.")]) := by
  constructor
  · intro hm
    constructor
    · simp [room_join, hlen, hdig, hfind, hm, insertar_aviso_sala]
    · simp [room_join, hlen, hdig, hfind, hm, insertar_aviso_sala]
  · intro hm
    constructor
    · simp [room_join, hlen, hdig, hfind, hm]
    · simp [room_join, hlen, hdig, hfind, hm]

/-- Concrete database for exercising C1: room 1 with code 123456, user 1 its
only member. -/
def dbC1 : DB := ⟨[⟨1, ("123456"), ("Test"), 1, 0⟩], [⟨1, 1, 0⟩], [], 1⟩

/-- C1 witness: user 2 joins room 1 of `dbC1` with code 123456. -/
theorem C1_witness :
    (room_join dbC1 2 ("bob") ("123456") 5).1.miembros = dbC1.miembros ++ [⟨1, 2, 5⟩]
    ∧ (room_join dbC1 2 ("bob") ("123456") 5).1.mensajes
        = dbC1.mensajes ++
          [⟨1, 1, none, ("bob") ++ (" se unio a la sala."), 5, true, none, none⟩] := by
  have h := C1_room_join_membresia dbC1 2 ("bob") ("123456") 5 ⟨1, ("123456"), ("Test"), 1, 0⟩
    (by decide) (by decide) (by decide)
  exact h.1 (by decide)

/-! ## Claim C8: join code validation happens on the stripped input -/

/-- Concrete database for exercising C8: room 2 with code 654321, user 1 its
only member. -/
def dbC8 : DB := ⟨[⟨2, ("654321"), ("Otra"), 1, 0⟩], [⟨2, 1, 0⟩], [], 1⟩

/-- C8 counterexample: the raw form input " 654321 " is 8 characters and is
not a string of decimal digits, yet `room_join` accepts it (Python strips the
input before validating), performs the room lookup and mutates the state. -/
theorem C8_contra_strip :
    ((" 654321 ") : String).length = 8
    ∧ pyIsdigit (" 654321 ") = false
    ∧ (room_join dbC8 3 ("eva") (" 654321 ") 9).2.2 = [("Te uniste a la sala.")]
    ∧ (room_join dbC8 3 ("eva") (" 654321 ") 9).1 ≠ dbC8 := by decide

/-- C8 (amended): a join whose code, after stripping surrounding whitespace
and uppercasing, is not exactly 6 decimal digits is rejected with the flash
"Codigo invalido." before any room lookup, leaving the database unchanged and
emitting no event. -/
theorem C8_room_join_validacion (db : DB) (id_usuario : Nat)
    (username code_form : String) (fecha : Nat)
    (h : (pyUpper (pyStrip code_form)).length ≠ 6
         ∨ pyIsdigit (pyUpper (pyStrip code_form)) = false) :
    room_join db id_usuario username code_form fecha = (db, [], [("Codigo invalido.")]) := by
  have hcond : ((pyUpper (pyStrip code_form)).length != 6
      || !(pyIsdigit (pyUpper (pyStrip code_form)))) = true := by
    rcases h with h1 | h1
    · simp [h1]
    · simp [h1]
  simp [room_join, hcond]

/-- C8 witness: the 5-character code 12345 is rejected as invalid. -/
theorem C8_witness :
    room_join dbC8 1 ("ana") ("12345") 3 = (dbC8, [], [("Codigo invalido.")]) :=
  C8_room_join_validacion dbC8 1 ("ana") ("12345") 3 (Or.inl (by decide))

/-! ## Claim C5: only the creator can delete a room -/

/-- C5: `room_delete` removes the Salas row only when the acting user is the
room's creator; a delete request by any other user is rejected with the flash
"Solo el creador puede borrar la sala." and leaves the rooms, memberships and
messages unchanged. -/
theorem C5_room_delete_creador (db : DB) (id_usuario : Nat) (room_id_form : String) :
    ((room_delete db id_usuario room_id_form).1.salas ≠ db.salas →
      ∃ sala, pyIsdigit (pyStrip room_id_form) = true
        ∧ db.salas.find? (fun s => s.id_sala == pyInt (pyStrip room_id_form)) = some sala
        ∧ sala.id_creador = id_usuario)
    ∧ (∀ sala, pyIsdigit (pyStrip room_id_form) = true →
        db.salas.find? (fun s => s.id_sala == pyInt (pyStrip room_id_form)) = some sala →
        sala.id_creador ≠ id_usuario →
        room_delete db id_usuario room_id_form
          = (db, [], [("Solo el creador puede borrar la sala.")])) := by
  constructor
  · intro hch
    by_cases hdig : pyIsdigit (pyStrip room_id_form) = true
    · rcases hfind : db.salas.find? (fun s => s.id_sala == pyInt (pyStrip room_id_form))
        with _ | sala
      · simp [room_delete, hdig, hfind] at hch
      · by_cases hcr : sala.id_creador = id_usuario
        · exact ⟨sala, hdig, hfind, hcr⟩
        · have hb : (sala.id_creador != id_usuario) = true := by simp [hcr]
          simp [room_delete, hdig, hfind, hb] at hch
    · have hdig2 : pyIsdigit (pyStrip room_id_form) = false := Bool.of_not_eq_true hdig
      simp [room_delete, hdig2] at hch
  · intro sala hdig hfind hne
    have hb : (sala.id_creador != id_usuario) = true := by simp [hne]
    simp [room_delete, hdig, hfind, hb]

/-- Concrete database for exercising C5: room 7 created by user 1, with one
membership and one message. -/
def dbC5 : DB :=
  ⟨[⟨7, ("222333"), ("Sala7"), 1, 0⟩], [⟨7, 1, 0⟩],
   [⟨1, 7, some 1, ("hola"), 0, false, none, none⟩], 2⟩

/-- C5 witness: user 2, who is not the creator of room 7, cannot delete it. -/
theorem C5_witness :
    room_delete dbC5 2 ("7") = (dbC5, [], [("Solo el creador puede borrar la sala.")]) :=
  (C5_room_delete_creador dbC5 2 ("7")).2 ⟨7, ("222333"), ("Sala7"), 1, 0⟩
    (by decide) (by decide) (by decide)

/-! ## Claim C6: the event emitted after a successful delete -/

/-- Concrete database for exercising C6: room 1 created by user 1. -/
def dbC6 : DB := ⟨[⟨1, ("111222"), ("Mia"), 1, 0⟩], [⟨1, 1, 0⟩], [], 1⟩

/-- C6 counterexample: user 1 successfully deletes room 1 of `dbC6`, and the
only emitted event is named actualizar_ui with payload field motivo — no
event named room_deleted and no payload field room_id is broadcast. -/
theorem C6_contra_evento :
    (room_delete dbC6 1 ("1")).1.salas = []
    ∧ (room_delete dbC6 1 ("1")).2.1
        = [⟨("actualizar_ui"), [(("motivo"), ("sala_eliminada"))], ("room_1")⟩]
    ∧ (List.map EventoEmitido.nombre (room_delete dbC6 1 ("1")).2.1).contains
        ("room_deleted") = false := by decide

/-- C6 (amended): after every successful `room_delete`, the event broadcast to
the deleted room's channel is named actualizar_ui and its payload carries the
single field motivo with value sala_eliminada. -/
theorem C6_room_delete_evento (db : DB) (id_usuario : Nat) (room_id_form : String)
    (sala : Sala)
    (hdig : pyIsdigit (pyStrip room_id_form) = true)
    (hfind : db.salas.find? (fun s => s.id_sala == pyInt (pyStrip room_id_form)) = some sala)
    (hcr : sala.id_creador = id_usuario) :
    (room_delete db id_usuario room_id_form).2.1
      = [⟨("actualizar_ui"), [(("motivo"), ("sala_eliminada"))],
          nombre_sala ("room") (pyInt (pyStrip room_id_form))⟩] := by
  simp [room_delete, hdig, hfind, hcr]

/-- C6 witness: the creator deletes room 1 of `dbC6` and the actualizar_ui
event is emitted to channel room_1. -/
theorem C6_witness :
    (room_delete dbC6 1 ("1")).2.1
      = [⟨("actualizar_ui"), [(("motivo"), ("sala_eliminada"))],
          nombre_sala ("room") (pyInt (pyStrip ("1")))⟩] :=
  C6_room_delete_evento dbC6 1 ("1") ⟨1, ("111222"), ("Mia"), 1, 0⟩
    (by decide) (by decide) (by decide)

/-! ## Claim C3: send_message inserts and broadcasts exactly under its preconditions -/

/-- Concrete database for exercising C3: room 1 with user 1 as member. -/
def dbC3 : DB := ⟨[⟨1, ("999000"), ("X"), 1, 0⟩], [⟨1, 1, 0⟩], [], 1⟩

/-- C3 counterexample: user 1 is a member of room 1 but sends a body that is
empty after stripping; the handler silently drops the request — the database
is unchanged and no event of any kind (in particular no user-facing error
message) is sent back. -/
theorem C3_contra_silencio :
    usuario_en_sala dbC3 1 1 = true
    ∧ manejar_envio_mensaje dbC3 (some 1) ("ana") ("room") ("1") ("   ") 7 = (dbC3, []) := by
  decide

/-- C3 (amended): when the sender is a member and the body is non-empty after
stripping, `manejar_envio_mensaje` inserts exactly one Message row and emits
one message event carrying the sender handle, the body and the server
timestamp; when either precondition fails, the request is silently ignored —
no Message row, no broadcast and no reply of any kind to the caller. -/
theorem C3_manejar_envio_mensaje (db : DB) (id_usuario : Nat)
    (username room_id_dato body_dato : String) (fecha room_id : Nat)
    (hdig : pyIsdigit room_id_dato = true)
    (hid : pyInt room_id_dato = room_id) :
    (usuario_en_sala db id_usuario room_id = true → pyStrip body_dato ≠ ("") →
      manejar_envio_mensaje db (some id_usuario) username ("room") room_id_dato body_dato fecha
        = ({ db with
             mensajes := db.mensajes ++
               [⟨db.next_id_mensaje, room_id, some id_usuario, pyStrip body_dato,
                 fecha, false, none, none⟩],
             next_id_mensaje := db.next_id_mensaje + 1 },
           [⟨("message"),
             [(("room_type"), ("room")), (("room_id"), toString room_id),
              (("body"), pyStrip body_dato), (("sender"), username),
              (("timestamp"), toString fecha)],
             nombre_sala ("room") room_id⟩]))
    ∧ (usuario_en_sala db id_usuario room_id = false ∨ pyStrip body_dato = ("") →
      manejar_envio_mensaje db (some id_usuario) username ("room") room_id_dato body_dato fecha
        = (db, [])) := by
  subst hid
  constructor
  · intro hm hb
    have hb2 : (pyStrip body_dato == ("")) = false := by simp [hb]
    simp [manejar_envio_mensaje, hdig, hm, hb2]
  · intro h
    rcases h with hm | hb
    · by_cases hbe : pyStrip body_dato = ("")
      · simp [manejar_envio_mensaje, hbe]
      · have hb2 : (pyStrip body_dato == ("")) = false := by simp [hbe]
        simp [manejar_envio_mensaje, hdig, hm, hb2]
    · simp [manejar_envio_mensaje, hb]

/-- C3 witness: member user 1 sends "hola " to room 1; one row is inserted
and one message event with sender, body and timestamp is emitted. -/
theorem C3_witness :
    manejar_envio_mensaje dbC3 (some 1) ("ana") ("room") ("1") ("hola ") 7
      = ({ dbC3 with
           mensajes := dbC3.mensajes ++ [⟨1, 1, some 1, ("hola"), 7, false, none, none⟩],
           next_id_mensaje := 2 },
         [⟨("message"),
           [(("room_type"), ("room")), (("room_id"), toString 1), (("body"), ("hola")),
            (("sender"), ("ana")), (("timestamp"), toString 7)],
           nombre_sala ("room") 1⟩]) := by
  have h := (C3_manejar_envio_mensaje dbC3 1 ("ana") ("1") ("hola ") 7 1
    (by decide) (by decide)).1 (by decide) (by decide)
  rw [h]
  decide

/-! ## Claim C9: leaving a room never touches the live subscriptions -/

/-- C9: for every leave by a member, only the persisted state changes — the
membership rows of that (room, user) pair are deleted and a system notice is
appended — while the connection router is left untouched, so every connection
subscribed to the room's channel before the leave is still subscribed after
it. -/
theorem C9_room_leave_router (srv : Servidor) (id_usuario : Nat)
    (username room_id_form : String) (fecha room_id : Nat)
    (hdig : pyIsdigit (pyStrip room_id_form) = true)
    (hid : pyInt (pyStrip room_id_form) = room_id)
    (hm : usuario_en_sala srv.db id_usuario room_id = true) :
    (room_leave srv id_usuario username room_id_form fecha).1.router = srv.router
    ∧ (room_leave srv id_usuario username room_id_form fecha).1.db.miembros
        = srv.db.miembros.filter
            (fun m => !(m.id_sala == room_id && m.id_usuario == id_usuario))
    ∧ (room_leave srv id_usuario username room_id_form fecha).1.db.mensajes
        = srv.db.mensajes ++
          [⟨srv.db.next_id_mensaje, room_id, none,
            username ++ (" salio de la sala."), fecha, true, none, none⟩]
    ∧ (∀ conexion canal, (conexion, canal) ∈ srv.router →
        (conexion, canal) ∈ (room_leave srv id_usuario username room_id_form fecha).1.router) := by
  subst hid
  have hr : (room_leave srv id_usuario username room_id_form fecha).1.router = srv.router := by
    simp [room_leave, hdig, hm]
  refine ⟨hr, ?_, ?_, ?_⟩
  · simp [room_leave, hdig, hm, insertar_aviso_sala]
  · simp [room_leave, hdig, hm, insertar_aviso_sala]
  · intro conexion canal hmem
    rw [hr]
    exact hmem

/-- Concrete server for exercising C9: room 4 with members 1 and 2, and a
live connection 5 of user 2 subscribed to the room's channel. -/
def srvC9 : Servidor :=
  ⟨⟨[⟨4, ("444555"), ("S4"), 1, 0⟩], [⟨4, 1, 0⟩, ⟨4, 2, 0⟩], [], 1⟩,
   [(5, ("user_2")), (5, ("room_4"))]⟩

/-- C9 witness: user 2 leaves room 4; the membership row disappears, the
notice is appended, and connection 5 is still subscribed to room_4. -/
theorem C9_witness :
    (room_leave srvC9 2 ("bea") ("4") 6).1.router = srvC9.router
    ∧ (room_leave srvC9 2 ("bea") ("4") 6).1.db.miembros = [⟨4, 1, 0⟩]
    ∧ (5, ("room_4")) ∈ (room_leave srvC9 2 ("bea") ("4") 6).1.router := by
  have h := C9_room_leave_router srvC9 2 ("bea") ("4") 6 4 (by decide) (by decide) (by decide)
  refine ⟨h.1, ?_, ?_⟩
  · rw [h.2.1]
    decide
  · exact h.2.2.2 5 ("room_4") (by decide)

/-! ## Claim C10: the media download endpoint checks nothing but the message -/

/-- C10: `get_media` depends only on the `Mensajes_Sala` table — it reads no
session and no membership, so two states with the same messages (whatever
their rooms and memberships) give the same response; the response is a 404
(`none`) exactly when no message with that id exists or the message's file
data is NULL or empty, and otherwise the stored blob is served. -/
theorem C10_get_media_abierto (db db2 : DB) (id_mensaje : Nat) :
    (db.mensajes = db2.mensajes → get_media db id_mensaje = get_media db2 id_mensaje)
    ∧ (get_media db id_mensaje = none ↔
        db.mensajes.find? (fun m => m.id_mensaje == id_mensaje) = none
        ∨ ∃ m, db.mensajes.find? (fun m2 => m2.id_mensaje == id_mensaje) = some m
             ∧ (m.archivo_datos = none ∨ m.archivo_datos = some []))
    ∧ (∀ m datos, db.mensajes.find? (fun m2 => m2.id_mensaje == id_mensaje) = some m →
        m.archivo_datos = some datos → datos ≠ [] →
        ∃ mime, get_media db id_mensaje = some (datos, mime)) := by
  refine ⟨?_, ?_, ?_⟩
  · intro h
    simp only [get_media, h]
  · rcases hfind : db.mensajes.find? (fun m => m.id_mensaje == id_mensaje) with _ | m
    · simp [get_media, hfind]
    · rcases hdat : m.archivo_datos with _ | datos
      · simp [get_media, hfind, hdat]
      · by_cases hemp : datos = []
        · subst hemp
          simp [get_media, hfind, hdat]
        · have hne : datos.isEmpty = false := by
            simp [List.isEmpty_iff, hemp]
          simp [get_media, hfind, hdat, hne, hemp]
  · intro m datos hfind hdat hne
    have hne2 : datos.isEmpty = false := by
      simp [List.isEmpty_iff, hne]
    simp [get_media, hfind, hdat, hne2]

/-- Concrete states for exercising C10: same messages table, entirely
different rooms and memberships. -/
def dbC10a : DB :=
  ⟨[⟨1, ("123123"), ("A"), 1, 0⟩], [⟨1, 1, 0⟩],
   [⟨1, 1, some 1, ("f.png"), 0, false, some ("image"), some [3, 4]⟩], 2⟩

/-- Variant of `dbC10a` with no rooms and no memberships at all. -/
def dbC10b : DB :=
  ⟨[], [], [⟨1, 1, some 1, ("f.png"), 0, false, some ("image"), some [3, 4]⟩], 2⟩

/-- C10 witness: the download of message 1 is identical whether or not any
room or membership exists, and it serves the stored blob. -/
theorem C10_witness :
    get_media dbC10a 1 = get_media dbC10b 1
    ∧ ∃ mime, get_media dbC10a 1 = some ([3, 4], mime) := by
  have h := C10_get_media_abierto dbC10a dbC10b 1
  exact ⟨h.1 (by decide),
         h.2.2 ⟨1, 1, some 1, ("f.png"), 0, false, some ("image"), some [3, 4]⟩ [3, 4]
           (by decide) (by decide) (by decide)⟩

/-! ## Claim C2: history returns the last 50 messages in ascending id order -/

/-- Inserting a message whose id is strictly below every id in a descending
list appends it at the end. -/
lemma insertarDesc_append (m : Mensaje) (l : List Mensaje)
    (h : ∀ x ∈ l, m.id_mensaje < x.id_mensaje) :
    insertarDesc m l = l ++ [m] := by
  induction l with
  | nil => rfl
  | cons x xs ih =>
    have hx := h x (List.mem_cons_self x xs)
    rw [insertarDesc, if_neg (Nat.not_le.mpr hx),
        ih (fun y hy => h y (List.mem_cons_of_mem x hy))]
    simp

/-- Sorting a strictly ascending list into descending order reverses it. -/
lemma ordenarDesc_de_ascendente (l : List Mensaje)
    (h : l.Pairwise (fun a b => a.id_mensaje < b.id_mensaje)) :
    ordenarDesc l = l.reverse := by
  induction l with
  | nil => rfl
  | cons x xs ih =>
    rcases List.pairwise_cons.mp h with ⟨hx, hxs⟩
    rw [ordenarDesc, ih hxs, insertarDesc_append x xs.reverse
        (fun y hy => hx y (List.mem_reverse.mp hy))]
    simp

/-- C2: for a member of a room, `api_messages` returns the suffix formed by
the room's last 50 messages, in ascending id order, assuming the message
table is (as the storage layer guarantees) in strictly ascending id order;
for a room holding at least 50 messages the result has exactly 50 entries and
every message left out has a smaller id than every message returned. -/
theorem C2_api_messages_historial (db : DB) (id_usuario : Nat) (room_id_arg : String)
    (room_id : Nat)
    (hdig : pyIsdigit room_id_arg = true)
    (hid : pyInt room_id_arg = room_id)
    (hm : usuario_en_sala db id_usuario room_id = true)
    (hsorted : db.mensajes.Pairwise (fun a b => a.id_mensaje < b.id_mensaje)) :
    api_messages db id_usuario ("room") room_id_arg
      = (mensajes_de_sala db room_id).drop ((mensajes_de_sala db room_id).length - 50)
    ∧ (api_messages db id_usuario ("room") room_id_arg).Pairwise
        (fun a b => a.id_mensaje < b.id_mensaje)
    ∧ (50 ≤ (mensajes_de_sala db room_id).length →
        (api_messages db id_usuario ("room") room_id_arg).length = 50
        ∧ ∀ a ∈ (mensajes_de_sala db room_id).take ((mensajes_de_sala db room_id).length - 50),
            ∀ b ∈ api_messages db id_usuario ("room") room_id_arg,
              a.id_mensaje < b.id_mensaje) := by
  subst hid
  have hfil : (mensajes_de_sala db (pyInt room_id_arg)).Pairwise
      (fun a b => a.id_mensaje < b.id_mensaje) := hsorted.filter _
  have hapi : api_messages db id_usuario ("room") room_id_arg
      = (mensajes_de_sala db (pyInt room_id_arg)).drop
          ((mensajes_de_sala db (pyInt room_id_arg)).length - 50) := by
    simp only [api_messages, hdig, hm, Bool.not_true, Bool.false_or, Bool.or_false,
      bne_self_eq_false, Bool.or_self, if_false, ite_false, Bool.false_eq_true]
    rw [ordenarDesc_de_ascendente _ hfil, List.take_reverse, List.reverse_reverse]
  refine ⟨hapi, ?_, ?_⟩
  · rw [hapi]
    exact hfil.sublist (List.drop_sublist _ _)
  · intro h50
    constructor
    · rw [hapi, List.length_drop, Nat.sub_sub_self h50]
    · have hsplit : ((mensajes_de_sala db (pyInt room_id_arg)).take
            ((mensajes_de_sala db (pyInt room_id_arg)).length - 50)
          ++ (mensajes_de_sala db (pyInt room_id_arg)).drop
            ((mensajes_de_sala db (pyInt room_id_arg)).length - 50)).Pairwise
          (fun a b => a.id_mensaje < b.id_mensaje) := by
        rw [List.take_append_drop]
        exact hfil
      have hcross := (List.pairwise_append.mp hsplit).2.2
      intro a ha b hb
      rw [hapi] at hb
      exact hcross a ha b hb

/-- Concrete database for exercising C2: room 1 with member 1 and three
messages with ascending ids, one of them belonging to another room. -/
def dbC2 : DB :=
  ⟨[⟨1, ("121212"), ("H"), 1, 0⟩], [⟨1, 1, 0⟩],
   [⟨1, 1, some 1, ("uno"), 0, false, none, none⟩,
    ⟨2, 9, some 1, ("otra"), 0, false, none, none⟩,
    ⟨3, 1, some 1, ("dos"), 0, false, none, none⟩], 4⟩

/-- C2 witness: the history of room 1 of `dbC2` is its two messages in
ascending id order. -/
theorem C2_witness :
    api_messages dbC2 1 ("room") ("1")
      = (mensajes_de_sala dbC2 1).drop ((mensajes_de_sala dbC2 1).length - 50)
    ∧ api_messages dbC2 1 ("room") ("1")
      = [⟨1, 1, some 1, ("uno"), 0, false, none, none⟩,
         ⟨3, 1, some 1, ("dos"), 0, false, none, none⟩] := by
  have h := C2_api_messages_historial dbC2 1 ("1") 1 (by decide) (by decide) (by decide)
    (by decide)
  exact ⟨h.1, by rw [h.1]; decide⟩

/-! ## Claim C4: generated room codes are six digits and fresh -/

/-- Every candidate code built from six alphabet draws is six characters of
decimal digits. -/
lemma codigo_de_valido (d : Fin 6 → Fin 10) :
    (codigo_de d).length = 6 ∧ (codigo_de d).data.all Char.isDigit = true := by
  constructor
  · show ((List.finRange 6).map (fun i => CODIGO_ALFABETO.data.getD (d i).val ('0'))).length = 6
    simp
  · have hd : ∀ j : Fin 10, (CODIGO_ALFABETO.data.getD j.val ('0')).isDigit = true := by
      decide
    show ((List.finRange 6).map
        (fun i => CODIGO_ALFABETO.data.getD (d i).val ('0'))).all Char.isDigit = true
    apply List.all_eq_true.mpr
    intro c hc
    rcases List.mem_map.mp hc with ⟨i, _, rfl⟩
    exact hd (d i)

/-- C4: whatever the set of codes of the existing rooms and whatever the
random draws, when `generar_codigo_sala` returns a code it is a string of
exactly 6 decimal digits that is not the code of any existing room. -/
theorem C4_generar_codigo_sala_fresco (codigos_existentes : List String)
    (draws : List (Fin 6 → Fin 10)) (c : String)
    (h : generar_codigo_sala codigos_existentes draws = some c) :
    c.length = 6 ∧ c.data.all Char.isDigit = true
    ∧ codigos_existentes.contains c = false := by
  induction draws with
  | nil => simp [generar_codigo_sala] at h
  | cons d resto ih =>
    by_cases hc : codigos_existentes.contains (codigo_de d) = true
    · rw [generar_codigo_sala, if_pos hc] at h
      exact ih h
    · have hc2 : codigos_existentes.contains (codigo_de d) = false :=
        Bool.of_not_eq_true hc
      rw [generar_codigo_sala, if_neg hc, Option.some.injEq] at h
      subst h
      exact ⟨(codigo_de_valido d).1, (codigo_de_valido d).2, hc2⟩

/-- C4 witness: with one room using code 111111 and draws producing 111111
then 222222, the generator skips the collision and returns 222222, a fresh
6-digit code. -/
theorem C4_witness :
    generar_codigo_sala [("111111")] [fun _ => 1, fun _ => 2] = some ("222222")
    ∧ ("222222" : String).length = 6
    ∧ ("222222" : String).data.all Char.isDigit = true
    ∧ ([("111111")] : List String).contains ("222222") = false := by
  have hgen : generar_codigo_sala [("111111")] [fun _ => 1, fun _ => 2]
      = some ("222222") := by decide
  have h := C4_generar_codigo_sala_fresco [("111111")] [fun _ => 1, fun _ => 2]
    ("222222") hgen
  exact ⟨hgen, h⟩

/-! ## Claim C7: upload extension gate and media kind mapping -/

/-- C7: for an upload by a room member, a file whose lowercased extension is
outside the allowed set is rejected with the 400 validation error and no
Message row is created; when the file passes `archivo_permitido`, the stored
media kind is audio for mp3, video for mp4 and image for jpg or png. -/
theorem C7_upload_media_tipos (db : DB) (id_usuario : Nat)
    (username room_id_form filename : String) (datos : List Nat) (fecha room_id : Nat)
    (hdig : pyIsdigit (pyStrip room_id_form) = true)
    (hid : pyInt (pyStrip room_id_form) = room_id)
    (hm : usuario_en_sala db id_usuario room_id = true) :
    (ALLOWED_EXTENSIONS.contains (pyLower (extension_archivo filename)) = false →
      upload_media db id_usuario username room_id_form (some (filename, datos)) fecha
        = (db, [], .error 400 ("Archivo no permitido.")))
    ∧ (archivo_permitido filename = true →
        (pyLower (extension_archivo filename) = ("mp3") →
          (upload_media db id_usuario username room_id_form (some (filename, datos)) fecha).1.mensajes
            = db.mensajes ++
              [⟨db.next_id_mensaje, room_id, some id_usuario, filename, fecha, false,
                some ("audio"), some datos⟩])
        ∧ (pyLower (extension_archivo filename) = ("mp4") →
          (upload_media db id_usuario username room_id_form (some (filename, datos)) fecha).1.mensajes
            = db.mensajes ++
              [⟨db.next_id_mensaje, room_id, some id_usuario, filename, fecha, false,
                some ("video"), some datos⟩])
        ∧ (pyLower (extension_archivo filename) = ("jpg")
            ∨ pyLower (extension_archivo filename) = ("png") →
          (upload_media db id_usuario username room_id_form (some (filename, datos)) fecha).1.mensajes
            = db.mensajes ++
              [⟨db.next_id_mensaje, room_id, some id_usuario, filename, fecha, false,
                some ("image"), some datos⟩])) := by
  subst hid
  constructor
  · intro hext
    have harch : archivo_permitido filename = false := by
      simp only [archivo_permitido, hext, Bool.and_false]
    simp [upload_media, hdig, hm, harch]
  · intro harch
    refine ⟨?_, ?_, ?_⟩
    · intro hext
      simp [upload_media, hdig, hm, harch, hext]
    · intro hext
      have h1 : ((("mp4") : String) == ("mp3")) = false := by decide
      simp [upload_media, hdig, hm, harch, hext, h1]
    · intro hext
      rcases hext with hext | hext
      · have h1 : ((("jpg") : String) == ("mp3")) = false := by decide
        have h2 : ((("jpg") : String) == ("mp4")) = false := by decide
        simp [upload_media, hdig, hm, harch, hext, h1, h2]
      · have h1 : ((("png") : String) == ("mp3")) = false := by decide
        have h2 : ((("png") : String) == ("mp4")) = false := by decide
        have h3 : ((("png") : String) == ("jpg")) = false := by decide
        simp [upload_media, hdig, hm, harch, hext, h1, h2, h3]

/-- Concrete database for exercising C7: room 1 with member 1. -/
def dbC7 : DB := ⟨[⟨1, ("777888"), ("M"), 1, 0⟩], [⟨1, 1, 0⟩], [], 1⟩

/-- C7 witness: member 1 uploading virus.exe to room 1 is rejected with the
400 error and no row is inserted, while uploading cancion.mp3 stores one row
with media kind audio. -/
theorem C7_witness :
    upload_media dbC7 1 ("ana") ("1") (some (("virus.exe"), [1, 2])) 4
      = (dbC7, [], .error 400 ("Archivo no permitido."))
    ∧ (upload_media dbC7 1 ("ana") ("1") (some (("cancion.mp3"), [1, 2])) 4).1.mensajes
      = dbC7.mensajes ++
        [⟨1, 1, some 1, ("cancion.mp3"), 4, false, some ("audio"), some [1, 2]⟩] := by
  have h := C7_upload_media_tipos dbC7 1 ("ana") ("1") ("virus.exe") [1, 2] 4 1
    (by decide) (by decide) (by decide)
  have h2 := C7_upload_media_tipos dbC7 1 ("ana") ("1") ("cancion.mp3") [1, 2] 4 1
    (by decide) (by decide) (by decide)
  exact ⟨h.1 (by decide), (h2.2 (by decide)).1 (by decide)⟩
